import Mathlib

/-!
Verification of `bin/navigate.py` (directory-navigation frecency database).

The embedding models Python dicts as insertion-ordered association lists
(`AList`), mirroring CPython's guaranteed dict iteration order. Floating
point frequencies and epoch timestamps are modelled as rationals; the
decimal constants of the source (0.99) are exact in this model.
`sys.exit(1)` / uncaught exceptions are modelled by explicit result
records and `Except`.
-/

namespace Navigate

/-- Insertion-ordered association list: the model of a Python dict. -/
abbrev AList (α : Type) := List (String × α)

/-- Python `d[k]` as an Option (first matching key). -/
def lookup {α : Type} : AList α → String → Option α
  | [], _ => none
  | (k, v) :: rest, key => if k = key then some v else lookup rest key

/-- Python `d[k] = v`: overwrite in place if the key exists (keeping its
position, as CPython dicts do), otherwise append at the end. -/
def setKey {α : Type} : AList α → String → α → AList α
  | [], key, v => [(key, v)]
  | (k, w) :: rest, key, v =>
    if k = key then (k, v) :: rest else (k, w) :: setKey rest key v

/-- Python `d.pop(k, None)`: remove the key if present. -/
def eraseKey {α : Type} : AList α → String → AList α
  | [], _ => []
  | (k, v) :: rest, key =>
    if k = key then eraseKey rest key else (k, v) :: eraseKey rest key

/-- Python `del d[k]`: raises KeyError when the key is absent. -/
def delKey {α : Type} (l : AList α) (key : String) : Except String (AList α) :=
  if (lookup l key).isSome then Except.ok (eraseKey l key)
  else Except.error "KeyError"

/-- Keys of a dict, in insertion order. -/
def keys {α : Type} (l : AList α) : List String :=
  l.map Prod.fst

/-- navigate.py line 15. -/
def MAX_CHOICES : Nat := 10

/-- navigate.py line 16: `MAX_AGE = 30 * 24 * 3600` seconds. -/
def MAX_AGE : ℚ := 30 * 24 * 3600

/-- navigate.py line 17: `DISCOUNT_FACTOR = 0.99`. -/
def DISCOUNT_FACTOR : ℚ := 99 / 100

/-- The persisted database: the four top-level collections of the JSON
file (`mark`, `count`, `ignore`, `time`). -/
structure Database where
  mark : AList String
  count : AList ℚ
  ignore : AList Nat
  time : AList ℚ
deriving DecidableEq

/-- navigate.py `default_json` (lines 23-30). -/
def default_json : Database :=
  { mark := [], count := [], ignore := [], time := [] }

/-- navigate.py `discount_counts` (lines 32-35): multiply every count by
DISCOUNT_FACTOR. -/
def discount_counts (count : AList ℚ) : AList ℚ :=
  count.map (fun p => (p.1, p.2 * DISCOUNT_FACTOR))

/-- navigate.py `color_mark` (lines 19-21). -/
def color_mark (mark : String) : String :=
  "\x1b[38;5;36m" ++ mark ++ "\x1b[0;0m"

/-- navigate.py `is_directory_match` (lines 56-61): every target must be a
substring of the directory (Python `target in directory`). -/
def is_directory_match (targets : List String) (directory : String) : Bool :=
  targets.all (fun target => decide (List.IsInfix target.data directory.data))

/-- The pairs selected by navigate.py `mark_prefix` (lines 79-85): marks
whose name starts with the requested name (`key.startswith(mark)`,
modelled code point wise on the character lists), in dict (insertion)
order. -/
def markPrefixEntries (mark : String) (marks : AList String) : AList String :=
  marks.filter (fun p => mark.data.isPrefixOf p.1.data)

/-- One suggestion line of `mark_prefix` (line 84). -/
def markLine (k v : String) : String :=
  "  " ++ color_mark k ++ " " ++ v

/-- navigate.py `mark_prefix` (lines 79-85): the joined suggestion text. -/
def markPrefixText (mark : String) (marks : AList String) : String :=
  String.intercalate "\n" ((markPrefixEntries mark marks).map (fun p => markLine p.1 p.2))

/-- Descending-by-value ordering used by `sorted(..., key=itemgetter(1),
reverse=True)` on (key, value) pairs. -/
def valueGe (a b : String × ℚ) : Prop := b.2 ≤ a.2

instance : DecidableRel valueGe := fun a b => inferInstanceAs (Decidable (b.2 ≤ a.2))

instance : IsTotal (String × ℚ) valueGe := ⟨fun a b => le_total b.2 a.2⟩

instance : IsTrans (String × ℚ) valueGe := ⟨fun _ _ _ h1 h2 => le_trans h2 h1⟩

/-- Python `sorted(d.items(), key=operator.itemgetter(1), reverse=True)`:
a stable descending sort by value (insertion sort is stable, like
CPython's sort). -/
def sortDescByValue (l : AList ℚ) : AList ℚ :=
  List.insertionSort valueGe l

/-- Ascending order on mark names, for `sorted(data["mark"])`: Python
compares strings lexicographically by code points, modelled on the
character lists. -/
def nameLe (a b : String × String) : Prop := ¬ (b.1.data < a.1.data)

instance : DecidableRel nameLe := fun a b =>
  inferInstanceAs (Decidable (¬ (b.1.data < a.1.data)))

/-- navigate.py `print_menu` (lines 87-108), restricted to its returned
options dict: indices 0.. over the top MAX_CHOICES most frequent
directories followed by the top MAX_CHOICES most recent ones. -/
def print_menu (db : Database) : AList String :=
  (((sortDescByValue db.count).take MAX_CHOICES
      ++ (sortDescByValue db.time).take MAX_CHOICES).enum).map
    (fun p => (toString p.1, p.2.1))

/-- navigate.py `handle_selection` (lines 37-54): returns the selected
directory (if any) and the lines printed to stdout. -/
def handle_selection (selection : String) (options : AList String) (db : Database) :
    Option String × List String :=
  match lookup options selection with
  | some d => (some d, [])
  | none =>
    if selection = "i" then
      (none, "Ignored directories:" :: db.ignore.map (fun p => "  " ++ p.1))
    else if selection = "m" then
      (none, "Marked directories: " ::
        (List.insertionSort nameLe db.mark).map (fun p => "  " ++ color_mark p.1 ++ " " ++ p.2))
    else
      (none, [])

/-- Result of `process_directory`: either a resolved directory, or
`sys.exit(1)` after printing the given lines to stdout. -/
inductive DirResult
  | found (dir : String)
  | exit1 (stdoutLines : List String)
deriving DecidableEq

/-- The stdout message printed when no candidate matches (line 126). -/
def noMatchMsg (terms : List String) : String :=
  "Could not find a directory that matches \x27" ++ String.intercalate " " terms ++ "\x27"

/-- The search loop of `process_directory` (lines 123-127): first match in
the sorted enumeration wins; otherwise print the message and exit 1. -/
def searchSorted (l : AList ℚ) (terms : List String) : DirResult :=
  match (sortDescByValue l).find? (fun e => is_directory_match terms e.1) with
  | some e => DirResult.found e.1
  | none => DirResult.exit1 [noMatchMsg terms]

/-- navigate.py `process_directory` (lines 110-127). The `[]` case is
unreachable from `main` (Python would raise IndexError). -/
def process_directory (directory : List String) (db : Database) : DirResult :=
  match directory with
  | [] => DirResult.exit1 []
  | [d] => DirResult.found d
  | d0 :: rest =>
    if d0 = "f" then searchSorted db.count rest
    else if d0 = "r" then searchSorted db.time rest
    else DirResult.exit1 []

/-- navigate.py `process_ignore` (lines 129-141). -/
def process_ignore (delete : Bool) (db : Database) (current_directory : String) : Database :=
  if delete then
    if (lookup db.ignore current_directory).isSome then
      { db with ignore := eraseKey db.ignore current_directory }
    else db
  else
    { db with ignore := setKey db.ignore current_directory 1,
              time := eraseKey db.time current_directory,
              count := eraseKey db.count current_directory }

/-- navigate.py `process_mark` (lines 143-154). -/
def process_mark (delete : Bool) (name : String) (db : Database) (current_directory : String) :
    Database :=
  if delete then
    if (lookup db.mark name).isSome then { db with mark := eraseKey db.mark name } else db
  else
    { db with mark := setKey db.mark name current_directory }

/-- navigate.py `process_jump` (lines 156-169): the resolved directory (if
the mark exists) and the lines printed to stdout on a miss. -/
def process_jump (name : String) (db : Database) : Option String × List String :=
  match lookup db.mark name with
  | some d => (some d, [])
  | none =>
    let possible := markPrefixText name db.mark
    (none, ["Mark " ++ name ++ " does not exist."] ++
      (if possible ≠ "" then ["Did you mean one of these marks?", possible, ""] else []))

/-- The visit-recording steps of `main` (navigate.py lines 235-238): add 1
to the directory's count (defaultdict: absent reads as 0), set its
timestamp to the current time, then discount all counts. This is the
spec's `record_visit` (§4.1). -/
def record_visit (db : Database) (dir : String) (now : ℚ) : Database :=
  let db1 := { db with count := setKey db.count dir ((lookup db.count dir).getD 0 + 1) }
  let db2 := { db1 with time := setKey db1.time dir now }
  { db2 with count := discount_counts db2.count }

/-- The deletion loop of `remove_old_directories` (lines 178-181):
`del data["time"][key]; del data["count"][key]` for each key, failing
with KeyError when a key is absent from `count`. -/
def delete_directories (db : Database) : List String → Except String Database
  | [] => Except.ok db
  | key :: rest =>
    match delKey db.time key with
    | Except.error e => Except.error e
    | Except.ok t =>
      match delKey db.count key with
      | Except.error e => Except.error e
      | Except.ok c => delete_directories { db with time := t, count := c } rest

/-- navigate.py `remove_old_directories` (lines 171-181): collect the set
of directories whose last visit is more than MAX_AGE seconds before
`now`, then delete each from both maps. -/
def remove_old_directories (db : Database) (now : ℚ) : Except String Database :=
  let deletionSet := ((db.time.filter (fun p => decide (now - p.2 > MAX_AGE))).map Prod.fst).dedup
  delete_directories db deletionSet

/-- The parsed command-line arguments of `main` (lines 193-214). -/
structure Args where
  directory : List String := []
  add : Option String := none
  mark : Option String := none
  delete : Bool := false
  ignore : Bool := false
  jump : Option String := none
deriving DecidableEq

/-- Python truthiness of an optional string (`if args.mark:`): present and
nonempty. -/
def truthy : Option String → Bool
  | none => false
  | some s => s != ""

/-- Observable outcome of one invocation, after `load_data`: the final
in-memory database, whether `write_data` ran, the lines written to
stdout, the exit status, and the resolved directory (`jump_directory`). -/
structure RunResult where
  db : Database
  saved : Bool
  stdout : List String
  exitCode : Nat
  resolved : Option String
deriving DecidableEq

/-- The normal exit path of `main` (lines 249-254): save, then print the
resolved directory and exit 0 if one was resolved, else exit 1. -/
def finishRun (db : Database) (out : List String) (jump : Option String) : RunResult :=
  { db := db, saved := true,
    stdout := out ++ (if truthy jump then [jump.getD ""] else []),
    exitCode := if truthy jump then 0 else 1,
    resolved := jump }

/-- navigate.py `main` (lines 226-254), from the point where the database
has been loaded. `current_directory` is the (possibly overridden) cwd,
`menuInput` the single interactive input line, `now1` the time recorded
for a visit (line 237) and `now2` the time used by eviction (line 173).
stderr output (logging, menu rendering) is not modelled. -/
def main_run (args : Args) (db : Database) (current_directory : String)
    (menuInput : String) (now1 now2 : ℚ) : RunResult :=
  if truthy args.mark then
    finishRun (process_mark args.delete (args.mark.getD "") db current_directory) [] none
  else if args.ignore then
    finishRun (process_ignore args.delete db current_directory) [] none
  else if truthy args.jump then
    let r := process_jump (args.jump.getD "") db
    finishRun db r.2 r.1
  else if truthy args.add = true ∧ lookup db.ignore (args.add.getD "") = none then
    let mid := record_visit db (args.add.getD "") now1
    match remove_old_directories mid now2 with
    | Except.ok db2 => finishRun db2 [] none
    | Except.error _ =>
      { db := mid, saved := false, stdout := [], exitCode := 1, resolved := none }
  else if args.directory = [] then
    let options := print_menu db
    let r := handle_selection menuInput options db
    finishRun db r.2 (if truthy r.1 then r.1 else none)
  else
    match process_directory args.directory db with
    | DirResult.found d => finishRun db [] (some d)
    | DirResult.exit1 out =>
      { db := db, saved := false, stdout := out, exitCode := 1, resolved := none }

/-- navigate.py `load_data` (lines 63-77), on a successfully parsed file:
the `count` collection is copied entry by entry into a fresh
defaultdict; the other collections are used as parsed. -/
def load_data (db : Database) : Database :=
  { db with count := db.count.foldl (fun acc p => setKey acc p.1 ((lookup db.count p.1).getD 0)) [] }

/-- navigate.py `write_data` (lines 183-186): the database is serialized
as-is (the JSON layer and the atomic file replace live outside this
module). -/
def write_data (db : Database) : Database := db

/-- Modelled from the spec: the wrapping shell (not part of src/) changes
into the directory resolved by the menu or search paths and, when that
change of directory succeeds, re-invokes the tool with the add flag set
to the resolved path (§4.3: "If the change succeeds and the resulting
path is not in the ignore set, §4.1 record_visit followed by evict_stale
runs immediately"; §1 delegates the actual cd to the caller). On a
failed cd no second invocation happens and the database is untouched. -/
def shell_followup (db : Database) (path : String) (cdOk : Bool) (now1 now2 : ℚ) : RunResult :=
  if cdOk then
    main_run { directory := [], add := some path } db "/" "" now1 now2
  else
    { db := db, saved := false, stdout := [], exitCode := 0, resolved := none }

/-! ### Helper lemmas on the dict model -/

theorem lookup_eraseKey_self {α : Type} (l : AList α) (k : String) :
    lookup (eraseKey l k) k = none := by
  induction l with
  | nil => rfl
  | cons p rest ih =>
    obtain ⟨pk, pv⟩ := p
    by_cases h : pk = k
    · simpa [eraseKey, h] using ih
    · simpa [eraseKey, h, lookup] using ih

theorem lookup_eraseKey_ne {α : Type} (l : AList α) (k k' : String) (h : k' ≠ k) :
    lookup (eraseKey l k) k' = lookup l k' := by
  induction l with
  | nil => rfl
  | cons p rest ih =>
    obtain ⟨pk, pv⟩ := p
    by_cases hp : pk = k
    · have hp' : pk ≠ k' := by
        rw [hp]
        exact Ne.symm h
      rw [show eraseKey ((pk, pv) :: rest) k = eraseKey rest k from by simp [eraseKey, hp]]
      rw [show lookup ((pk, pv) :: rest) k' = lookup rest k' from by simp [lookup, hp']]
      exact ih
    · rw [show eraseKey ((pk, pv) :: rest) k = (pk, pv) :: eraseKey rest k from by
        simp [eraseKey, hp]]
      by_cases hp' : pk = k'
      · simp [lookup, hp']
      · simp only [lookup, if_neg hp']
        exact ih

theorem lookup_eraseKey_none {α : Type} (l : AList α) (k k' : String)
    (h : lookup l k' = none) : lookup (eraseKey l k) k' = none := by
  by_cases hk : k' = k
  · subst hk
    exact lookup_eraseKey_self l k'
  · rw [lookup_eraseKey_ne l k k' hk]
    exact h

theorem lookup_setKey_self {α : Type} (l : AList α) (k : String) (v : α) :
    lookup (setKey l k v) k = some v := by
  induction l with
  | nil => simp [setKey, lookup]
  | cons p rest ih =>
    obtain ⟨pk, pv⟩ := p
    by_cases h : pk = k
    · simp [setKey, h, lookup]
    · simpa [setKey, h, lookup] using ih

theorem lookup_setKey_ne {α : Type} (l : AList α) (k k' : String) (v : α) (h : k' ≠ k) :
    lookup (setKey l k v) k' = lookup l k' := by
  induction l with
  | nil => simp [setKey, lookup, Ne.symm h]
  | cons p rest ih =>
    obtain ⟨pk, pv⟩ := p
    by_cases hp : pk = k
    · have hp' : pk ≠ k' := by
        rw [hp]
        exact Ne.symm h
      simp [setKey, hp, lookup, hp', Ne.symm h]
    · rw [show setKey ((pk, pv) :: rest) k v = (pk, pv) :: setKey rest k v from by
        simp [setKey, hp]]
      by_cases hp' : pk = k'
      · simp [lookup, hp']
      · simp only [lookup, if_neg hp']
        exact ih

theorem lookup_discount (l : AList ℚ) (k : String) :
    lookup (discount_counts l) k = (lookup l k).map (fun v => v * DISCOUNT_FACTOR) := by
  induction l with
  | nil => rfl
  | cons p rest ih =>
    obtain ⟨pk, pv⟩ := p
    by_cases h : pk = k
    · simp [discount_counts, lookup, h]
    · simpa [discount_counts, lookup, h] using ih

theorem lookup_isSome_iff_mem {α : Type} (l : AList α) (k : String) :
    (lookup l k).isSome = true ↔ k ∈ keys l := by
  induction l with
  | nil => simp [lookup, keys]
  | cons p rest ih =>
    obtain ⟨pk, pv⟩ := p
    by_cases h : pk = k
    · simp [lookup, keys, h]
    · simpa [lookup, keys, h, Ne.symm h] using ih

theorem mem_of_lookup_eq_some {α : Type} {l : AList α} {k : String} {v : α}
    (h : lookup l k = some v) : (k, v) ∈ l := by
  induction l with
  | nil => simp [lookup] at h
  | cons p rest ih =>
    obtain ⟨pk, pv⟩ := p
    by_cases hp : pk = k
    · simp [lookup, hp] at h
      exact List.mem_cons.mpr (Or.inl (by rw [hp, h]))
    · simp [lookup, hp] at h
      exact List.mem_cons_of_mem _ (ih h)

theorem lookup_eq_some_of_nodup {α : Type} {l : AList α} {k : String} {v : α}
    (hnd : (keys l).Nodup) (hmem : (k, v) ∈ l) : lookup l k = some v := by
  induction l with
  | nil => simp at hmem
  | cons p rest ih =>
    obtain ⟨pk, pv⟩ := p
    simp only [keys, List.map_cons, List.nodup_cons] at hnd
    rcases List.mem_cons.mp hmem with h | h
    · rw [← h]
      simp [lookup]
    · have hk : pk ≠ k := by
        intro he
        subst he
        exact hnd.1 (List.mem_map_of_mem Prod.fst h)
      simp only [lookup, if_neg hk]
      exact ih hnd.2 h

theorem mem_setKey {α : Type} {l : AList α} {k : String} {v : α} {p : String × α}
    (h : p ∈ setKey l k v) : p = (k, v) ∨ p ∈ l := by
  induction l with
  | nil => simpa [setKey] using h
  | cons q rest ih =>
    obtain ⟨qk, qv⟩ := q
    by_cases hq : qk = k
    · simp [setKey, hq] at h
      rcases h with h | h
      · left
        exact h
      · right
        exact List.mem_cons_of_mem _ h
    · simp [setKey, hq] at h
      rcases h with h | h
      · right
        simp [h]
      · rcases ih h with h' | h'
        · left
          exact h'
        · right
          exact List.mem_cons_of_mem _ h'

/-- A successful head step of the deletion loop erases the key from both
maps and continues. -/
theorem delete_directories_cons {db : Database} {key : String} {rest : List String}
    {db2 : Database} (h : delete_directories db (key :: rest) = Except.ok db2) :
    (lookup db.time key).isSome = true ∧ (lookup db.count key).isSome = true ∧
      delete_directories
        { db with time := eraseKey db.time key, count := eraseKey db.count key } rest =
        Except.ok db2 := by
  by_cases ht : (lookup db.time key).isSome
  · by_cases hc : (lookup db.count key).isSome
    · refine ⟨ht, hc, ?_⟩
      simpa [delete_directories, delKey, ht, hc, eraseKey] using h
    · simp [delete_directories, delKey, ht, hc] at h
  · simp [delete_directories, delKey, ht] at h

/-- The deletion loop never touches the mark and ignore collections. -/
theorem delete_directories_fields {l : List String} :
    ∀ (db db2 : Database), delete_directories db l = Except.ok db2 →
      db2.mark = db.mark ∧ db2.ignore = db.ignore := by
  induction l with
  | nil =>
    intro db db2 h
    simp [delete_directories] at h
    rw [← h]
    exact ⟨rfl, rfl⟩
  | cons key rest ih =>
    intro db db2 h
    obtain ⟨_, _, h'⟩ := delete_directories_cons h
    have h2 := ih _ _ h'
    exact h2

/-- The deletion loop only removes entries: an absent key stays absent. -/
theorem delete_directories_none {l : List String} :
    ∀ (db db2 : Database), delete_directories db l = Except.ok db2 → ∀ x : String,
      (lookup db.time x = none → lookup db2.time x = none) ∧
      (lookup db.count x = none → lookup db2.count x = none) := by
  induction l with
  | nil =>
    intro db db2 h x
    simp [delete_directories] at h
    rw [← h]
    exact ⟨id, id⟩
  | cons key rest ih =>
    intro db db2 h x
    obtain ⟨_, _, h'⟩ := delete_directories_cons h
    refine ⟨fun hx => ?_, fun hx => ?_⟩
    · exact (ih _ _ h' x).1 (lookup_eraseKey_none _ _ _ hx)
    · exact (ih _ _ h' x).2 (lookup_eraseKey_none _ _ _ hx)

/-- Every key handed to a successful deletion loop is gone from both maps
afterwards. -/
theorem delete_directories_deleted {l : List String} :
    ∀ (db db2 : Database), delete_directories db l = Except.ok db2 → ∀ k ∈ l,
      lookup db2.time k = none ∧ lookup db2.count k = none := by
  induction l with
  | nil =>
    intro db db2 h k hk
    simp at hk
  | cons key rest ih =>
    intro db db2 h k hk
    obtain ⟨_, _, h'⟩ := delete_directories_cons h
    rcases List.mem_cons.mp hk with hk | hk
    · subst hk
      refine ⟨(delete_directories_none _ _ h' k).1 ?_, (delete_directories_none _ _ h' k).2 ?_⟩
      · exact lookup_eraseKey_self _ _
      · exact lookup_eraseKey_self _ _
    · exact ih _ _ h' k hk

/-- The deletion loop succeeds when its keys are distinct and present in
both maps. -/
theorem delete_directories_isOk {l : List String} :
    ∀ (db : Database), l.Nodup →
      (∀ k ∈ l, (lookup db.time k).isSome = true ∧ (lookup db.count k).isSome = true) →
      (delete_directories db l).isOk = true := by
  induction l with
  | nil =>
    intro db _ _
    simp [delete_directories, Except.isOk, Except.toBool]
  | cons key rest ih =>
    intro db hnd hall
    obtain ⟨ht, hc⟩ := hall key (List.mem_cons_self key rest)
    have step : delete_directories db (key :: rest) =
        delete_directories
          { db with time := eraseKey db.time key, count := eraseKey db.count key } rest := by
      simp [delete_directories, delKey, ht, hc, eraseKey]
    rw [step]
    refine ih _ (List.nodup_cons.mp hnd).2 ?_
    intro k hk
    have hne : k ≠ key := by
      intro he
      subst he
      exact (List.nodup_cons.mp hnd).1 hk
    have := hall k (List.mem_cons_of_mem _ hk)
    constructor
    · rw [show lookup (eraseKey db.time key) k = lookup db.time k from
        lookup_eraseKey_ne _ _ _ hne]
      exact this.1
    · rw [show lookup (eraseKey db.count key) k = lookup db.count k from
        lookup_eraseKey_ne _ _ _ hne]
      exact this.2

/-! ### Claim C7 -/

/-- Claim C7: immediately after every visit-recording call (the
record-then-evict step of `main`, lines 234-239), every directory whose
last-visit timestamp is more than MAX_AGE = 2,592,000 seconds before the
eviction time is absent from both the frequency map and the timestamp
map. -/
theorem c7_no_stale_after_visit (db : Database) (dir : String) (now1 now2 : ℚ)
    (db2 : Database)
    (h : remove_old_directories (record_visit db dir now1) now2 = Except.ok db2) :
    ∀ d t, lookup (record_visit db dir now1).time d = some t → now2 - t > MAX_AGE →
      lookup db2.time d = none ∧ lookup db2.count d = none := by
  intro d t hl hstale
  have hmem : (d, t) ∈ (record_visit db dir now1).time := mem_of_lookup_eq_some hl
  have hfil : (d, t) ∈ (record_visit db dir now1).time.filter
      (fun p => decide (now2 - p.2 > MAX_AGE)) :=
    List.mem_filter.mpr ⟨hmem, by simpa using hstale⟩
  have hdedup : d ∈ (((record_visit db dir now1).time.filter
      (fun p => decide (now2 - p.2 > MAX_AGE))).map Prod.fst).dedup :=
    List.mem_dedup.mpr (List.mem_map_of_mem Prod.fst hfil)
  exact delete_directories_deleted _ _ h d hdedup

/-- Concrete database for the C7 witness: one thirty-day-old entry. -/
def c7wDb : Database :=
  { mark := [], count := [("old", 1)], ignore := [], time := [("old", 0)] }

/-- Result database of the C7 witness run. -/
def c7wDb2 : Database :=
  { mark := [], count := [("new", 1 * DISCOUNT_FACTOR)], ignore := [],
    time := [("new", 2592002)] }

/-- Witness for C7 at a concrete input: recording a visit to "new" at time
2592002 evicts "old" (last visited at time 0) from both maps. -/
theorem c7_no_stale_after_visit_witness :
    remove_old_directories (record_visit c7wDb "new" 2592002) 2592002 = Except.ok c7wDb2 ∧
      lookup c7wDb2.time "old" = none ∧ lookup c7wDb2.count "old" = none := by
  have hrun : remove_old_directories (record_visit c7wDb "new" 2592002) 2592002 =
      Except.ok c7wDb2 := by
    norm_num [remove_old_directories, record_visit, c7wDb, c7wDb2, delete_directories,
      delKey, lookup, eraseKey, setKey, discount_counts, MAX_AGE, List.filter, List.dedup,
      show ("new" : String) ≠ "old" from by decide,
      show ("old" : String) ≠ "new" from by decide]
  have hlook : lookup (record_visit c7wDb "new" 2592002).time "old" = some 0 := by
    norm_num [record_visit, c7wDb, lookup, setKey,
      show ("old" : String) ≠ "new" from by decide]
  have hstale : (2592002 : ℚ) - 0 > MAX_AGE := by
    norm_num [MAX_AGE]
  exact ⟨hrun, c7_no_stale_after_visit c7wDb "new" 2592002 2592002 c7wDb2 hrun
    "old" 0 hlook hstale⟩

/-! ### Claim C10 -/

/-- Concrete database for the C10 counter-part: a stale timestamp entry
with no corresponding count entry. -/
def c10BadDb : Database :=
  { mark := [], count := [], ignore := [], time := [("orphan", 0)] }

/-- Claim C10: when the timestamp keys are a subset of the count keys,
`remove_old_directories` completes without error; and the precondition is
required, since a stale timestamp entry with no count entry makes the
unchecked `del data["count"][key]` raise KeyError. -/
theorem c10_eviction_requires_subset :
    (∀ (db : Database) (now : ℚ), keys db.time ⊆ keys db.count →
      (remove_old_directories db now).isOk = true) ∧
    (remove_old_directories c10BadDb (MAX_AGE + 1)).isOk = false := by
  constructor
  · intro db now hsub
    apply delete_directories_isOk
    · exact List.nodup_dedup _
    · intro k hk
      have hk' : k ∈ (db.time.filter (fun p => decide (now - p.2 > MAX_AGE))).map Prod.fst :=
        List.mem_dedup.mp hk
      have htime : k ∈ keys db.time :=
        (List.Sublist.map Prod.fst (List.filter_sublist db.time)).subset hk'
      exact ⟨(lookup_isSome_iff_mem _ _).mpr htime,
        (lookup_isSome_iff_mem _ _).mpr (hsub htime)⟩
  · norm_num [remove_old_directories, c10BadDb, delete_directories, delKey, lookup,
      eraseKey, MAX_AGE, List.filter, List.dedup, Except.isOk, Except.toBool]

/-- Concrete database for the C10 witness: timestamp keys included in the
count keys, with one stale entry. -/
def c10GoodDb : Database :=
  { mark := [], count := [("a", 1)], ignore := [], time := [("a", 0)] }

/-- Witness for the universal part of C10 at a concrete input. -/
theorem c10_eviction_requires_subset_witness :
    keys c10GoodDb.time ⊆ keys c10GoodDb.count ∧
      (remove_old_directories c10GoodDb (MAX_AGE + 1)).isOk = true := by
  constructor
  · decide
  · exact c10_eviction_requires_subset.1 c10GoodDb (MAX_AGE + 1) (by decide)

/-! ### Claim C9 -/

theorem setKey_of_not_mem {α : Type} (acc : AList α) (k : String) (v : α)
    (h : k ∉ keys acc) : setKey acc k v = acc ++ [(k, v)] := by
  induction acc with
  | nil => rfl
  | cons p rest ih =>
    obtain ⟨pk, pv⟩ := p
    simp only [keys, List.map_cons, List.mem_cons] at h
    push_neg at h
    rw [show setKey ((pk, pv) :: rest) k v = (pk, pv) :: setKey rest k v from by
      simp [setKey, Ne.symm h.1]]
    rw [ih (by simpa [keys] using h.2)]
    simp

theorem foldl_setKey {α : Type} (g : String × α → α) :
    ∀ (l acc : AList α), (keys l).Nodup → (∀ p ∈ l, p.1 ∉ keys acc) →
      l.foldl (fun acc p => setKey acc p.1 (g p)) acc = acc ++ l.map (fun p => (p.1, g p)) := by
  intro l
  induction l with
  | nil =>
    intro acc _ _
    simp
  | cons p rest ih =>
    intro acc hnd hdisj
    obtain ⟨pk, pv⟩ := p
    simp only [keys, List.map_cons, List.nodup_cons] at hnd
    rw [List.foldl_cons]
    rw [show setKey acc pk (g (pk, pv)) = acc ++ [(pk, g (pk, pv))] from
      setKey_of_not_mem acc pk _ (hdisj (pk, pv) (List.mem_cons_self _ _))]
    rw [ih (acc ++ [(pk, g (pk, pv))]) hnd.2 ?_]
    · simp
    · intro q hq
      simp only [keys, List.map_append, List.mem_append] at hdisj ⊢
      push_neg
      refine ⟨?_, ?_⟩
      · have := hdisj q (List.mem_cons_of_mem _ hq)
        simpa [keys] using this
      · have hqk : q.1 ≠ pk := by
          intro he
          exact hnd.1 (he ▸ List.mem_map_of_mem Prod.fst hq)
        simp [hqk]

/-- Claim C9: loading a database file and saving it with no mutating
operation in between reproduces the same database (`load_data` copies the
count collection entry by entry into a fresh defaultdict; `write_data`
serializes the collections unchanged). The keys of a parsed JSON object
are distinct. -/
theorem c9_load_save_roundtrip (db : Database) (h : (keys db.count).Nodup) :
    write_data (load_data db) = db := by
  have hfold : db.count.foldl
      (fun acc p => setKey acc p.1 ((lookup db.count p.1).getD 0)) [] = db.count := by
    rw [foldl_setKey (fun p => (lookup db.count p.1).getD 0) db.count [] h (by simp [keys])]
    rw [List.nil_append]
    have : ∀ p ∈ db.count, (p.1, (lookup db.count p.1).getD 0) = p := by
      intro p hp
      obtain ⟨pk, pv⟩ := p
      rw [lookup_eq_some_of_nodup h hp]
      rfl
    calc db.count.map (fun p => (p.1, (lookup db.count p.1).getD 0))
        = db.count.map id := List.map_congr_left this
      _ = db.count := List.map_id db.count
  unfold write_data load_data
  rw [hfold]

/-- Concrete database for the C9 witness. -/
def c9wDb : Database :=
  { mark := [("m", "/x")], count := [("a", 2), ("b", 1)], ignore := [("i", 1)],
    time := [("a", 5)] }

/-- Witness for C9 at a concrete input. -/
theorem c9_load_save_roundtrip_witness :
    (keys c9wDb.count).Nodup ∧ write_data (load_data c9wDb) = c9wDb :=
  ⟨by decide, c9_load_save_roundtrip c9wDb (by decide)⟩

/-! ### Claim C8 -/

/-- What claim C8 asserts about the order of the suggestion list: the
prefix-matching marks sorted by mark name. -/
def c8_claim_order (name : String) (marks : AList String) : AList String :=
  List.insertionSort nameLe (markPrefixEntries name marks)

/-- The amended property for C8: on a missing mark, resolution fails, the
reported suggestion entries are exactly the marks of which the requested
name is a prefix, and they appear in registry (insertion) order — a
sublist of the registry, not sorted by name. -/
def c8_conclusion (name : String) (db : Database) : Prop :=
  (process_jump name db).1 = none ∧
  (process_jump name db).2 = ["Mark " ++ name ++ " does not exist."] ++
    (if markPrefixText name db.mark ≠ "" then
      ["Did you mean one of these marks?", markPrefixText name db.mark, ""] else []) ∧
  (markPrefixEntries name db.mark).Sublist db.mark ∧
  (∀ k v, (k, v) ∈ markPrefixEntries name db.mark ↔
    ((k, v) ∈ db.mark ∧ name.data.isPrefixOf k.data = true))

/-- Claim C8 (amended): for a jump request whose mark is missing,
resolution fails and the suggestion list contains exactly those existing
marks of which the requested name is a case-sensitive prefix, in registry
insertion order (the source iterates the dict unsorted). -/
theorem c8_jump_suggestions (name : String) (db : Database)
    (h : lookup db.mark name = none) : c8_conclusion name db := by
  refine ⟨?_, ?_, List.filter_sublist _, ?_⟩
  · simp [process_jump, h]
  · simp [process_jump, h]
  · intro k v
    simp [markPrefixEntries, List.mem_filter]

/-- Concrete registry for the C8 counterexample: marks inserted in
non-alphabetical order. -/
def c8CexDb : Database :=
  { mark := [("pb", "/1"), ("pa", "/2")], count := [], ignore := [], time := [] }

/-- Counterexample to C8 as stated: for the missing mark "p", the
suggestion entries come out in insertion order ("pb" before "pa"), not in
sorted mark-name order. -/
theorem c8_order_counterexample :
    lookup c8CexDb.mark "p" = none ∧
      markPrefixEntries "p" c8CexDb.mark ≠ c8_claim_order "p" c8CexDb.mark := by
  constructor
  · decide
  · decide

/-- Witness for the amended C8 at a concrete input. -/
theorem c8_jump_suggestions_witness :
    lookup c8CexDb.mark "p" = none ∧ c8_conclusion "p" c8CexDb :=
  ⟨by decide, c8_jump_suggestions "p" c8CexDb (by decide)⟩

/-! ### Claim C5 -/

/-- What claim C5 asserts about a search over one map: there is a
descending enumeration of the candidates (a permutation of the map,
sorted by value, ties unspecified) such that the result is the first
candidate all of whose search terms are substrings, or the no-match exit
when none matches. -/
def search_enum_spec (m : AList ℚ) (terms : List String) (r : DirResult) : Prop :=
  ∃ l : AList ℚ, l.Perm m ∧ List.Pairwise (fun a b : String × ℚ => b.2 ≤ a.2) l ∧
    ((∃ e : String × ℚ, l.find? (fun e => is_directory_match terms e.1) = some e ∧
        r = DirResult.found e.1) ∨
      (l.find? (fun e => is_directory_match terms e.1) = none ∧
        r = DirResult.exit1 [noMatchMsg terms]))

/-- The three-way conclusion of claim C5 for a multi-argument search. -/
def c5_conclusion (d0 : String) (ts : List String) (db : Database) : Prop :=
  (d0 ≠ "f" → d0 ≠ "r" →
    (process_directory (d0 :: ts) db = DirResult.exit1 [] ∧
      ∀ (cwd mi : String) (n1 n2 : ℚ),
        main_run { directory := d0 :: ts } db cwd mi n1 n2 =
          { db := db, saved := false, stdout := [], exitCode := 1, resolved := none })) ∧
  (d0 = "f" → search_enum_spec db.count ts (process_directory (d0 :: ts) db)) ∧
  (d0 = "r" → search_enum_spec db.time ts (process_directory (d0 :: ts) db))

theorem searchSorted_spec (m : AList ℚ) (terms : List String) :
    search_enum_spec m terms (searchSorted m terms) := by
  refine ⟨sortDescByValue m, List.perm_insertionSort valueGe m, ?_, ?_⟩
  · exact (List.sorted_insertionSort valueGe m).imp (fun h => h)
  · cases hf : (sortDescByValue m).find? (fun e => is_directory_match terms e.1) with
    | some e => exact Or.inl ⟨e, rfl, by simp [searchSorted, hf]⟩
    | none => exact Or.inr ⟨rfl, by simp [searchSorted, hf]⟩

/-- Claim C5: for a search request with two or more positional arguments,
a first argument other than "f" or "r" is a fatal usage error (exit 1,
nothing on stdout, nothing saved); otherwise the candidates are
enumerated in descending order of frequency ("f") or of last-visit time
("r"), a candidate matches only if every remaining argument is a
substring of its path, and the first match in that order is the resolved
directory. -/
theorem c5_search_semantics (d0 : String) (ts : List String) (db : Database)
    (h : ts ≠ []) : c5_conclusion d0 ts db := by
  obtain ⟨t0, ts', rfl⟩ := List.exists_cons_of_ne_nil h
  refine ⟨fun hf hr => ⟨?_, ?_⟩, fun hf => ?_, fun hr => ?_⟩
  · simp [process_directory, hf, hr]
  · intro cwd mi n1 n2
    simp [main_run, truthy, process_directory, hf, hr]
  · subst hf
    rw [show process_directory ("f" :: t0 :: ts') db =
      searchSorted db.count (t0 :: ts') from by simp [process_directory]]
    exact searchSorted_spec _ _
  · subst hr
    rw [show process_directory ("r" :: t0 :: ts') db =
      searchSorted db.time (t0 :: ts') from by simp [process_directory]]
    exact searchSorted_spec _ _

/-- Witness for C5 at a concrete input: an "f" search with no match on
the empty database. -/
theorem c5_search_semantics_witness :
    (["zzz"] ≠ ([] : List String)) ∧ c5_conclusion "f" ["zzz"] default_json :=
  ⟨by decide, c5_search_semantics "f" ["zzz"] default_json (by decide)⟩

/-! ### Claim C6 -/

/-- The mutual-exclusion invariant: no directory is simultaneously in the
ignore set and in the frequency map or the timestamp map. -/
def mutual_exclusion (db : Database) : Prop :=
  ∀ p ∈ db.ignore, lookup db.count p.1 = none ∧ lookup db.time p.1 = none

theorem mem_eraseKey_subset {α : Type} {l : AList α} {k : String} {p : String × α}
    (h : p ∈ eraseKey l k) : p ∈ l := by
  induction l with
  | nil => simp [eraseKey] at h
  | cons q rest ih =>
    obtain ⟨qk, qv⟩ := q
    by_cases hq : qk = k
    · simp only [eraseKey, if_pos hq] at h
      exact List.mem_cons_of_mem _ (ih h)
    · simp only [eraseKey, if_neg hq] at h
      rcases List.mem_cons.mp h with h | h
      · exact List.mem_cons.mpr (Or.inl h)
      · exact List.mem_cons_of_mem _ (ih h)

theorem mutual_exclusion_fields {db db2 : Database} (h : mutual_exclusion db)
    (hig : db2.ignore = db.ignore) (hc : db2.count = db.count) (ht : db2.time = db.time) :
    mutual_exclusion db2 := by
  intro p hp
  rw [hig] at hp
  rw [hc, ht]
  exact h p hp

theorem mutual_exclusion_process_mark (d : Bool) (name : String) (db : Database)
    (cd : String) (h : mutual_exclusion db) :
    mutual_exclusion (process_mark d name db cd) := by
  unfold process_mark
  split_ifs
  · exact mutual_exclusion_fields h rfl rfl rfl
  · exact h
  · exact mutual_exclusion_fields h rfl rfl rfl

theorem mutual_exclusion_process_ignore (d : Bool) (db : Database) (cd : String)
    (h : mutual_exclusion db) : mutual_exclusion (process_ignore d db cd) := by
  unfold process_ignore
  split_ifs
  · intro p hp
    exact h p (mem_eraseKey_subset hp)
  · exact h
  · intro p hp
    rcases mem_setKey hp with hpe | hpmem
    · rw [hpe]
      exact ⟨lookup_eraseKey_self _ _, lookup_eraseKey_self _ _⟩
    · obtain ⟨hc, ht⟩ := h p hpmem
      exact ⟨lookup_eraseKey_none _ _ _ hc, lookup_eraseKey_none _ _ _ ht⟩

theorem mutual_exclusion_record_visit (db : Database) (dir : String) (now : ℚ)
    (h : mutual_exclusion db) (hig : lookup db.ignore dir = none) :
    mutual_exclusion (record_visit db dir now) := by
  intro p hp
  have hpmem : p ∈ db.ignore := hp
  have hne : p.1 ≠ dir := by
    intro he
    have hs : (lookup db.ignore p.1).isSome = true :=
      (lookup_isSome_iff_mem _ _).mpr (List.mem_map_of_mem Prod.fst hpmem)
    rw [he, hig] at hs
    simp at hs
  obtain ⟨hc, ht⟩ := h p hpmem
  constructor
  · rw [show (record_visit db dir now).count =
      discount_counts (setKey db.count dir ((lookup db.count dir).getD 0 + 1)) from rfl]
    rw [lookup_discount, lookup_setKey_ne _ _ _ _ hne, hc]
    rfl
  · rw [show (record_visit db dir now).time = setKey db.time dir now from rfl]
    rw [lookup_setKey_ne _ _ _ _ hne]
    exact ht

theorem mutual_exclusion_delete_directories {db db2 : Database} {l : List String}
    (h : delete_directories db l = Except.ok db2) (hme : mutual_exclusion db) :
    mutual_exclusion db2 := by
  intro p hp
  have hig := (delete_directories_fields db db2 h).2
  have hpmem : p ∈ db.ignore := hig ▸ hp
  obtain ⟨hc, ht⟩ := hme p hpmem
  exact ⟨(delete_directories_none db db2 h p.1).2 hc,
    (delete_directories_none db db2 h p.1).1 ht⟩

/-- Claim C6: after every invocation (mark add/remove, ignore/unignore,
visit recording, menu, search), no directory is simultaneously in the
ignore set and in the frequency or timestamp maps, provided the loaded
database satisfied that invariant. -/
theorem c6_mutual_exclusion_preserved (args : Args) (db : Database) (cwd mi : String)
    (n1 n2 : ℚ) (h : mutual_exclusion db) :
    mutual_exclusion (main_run args db cwd mi n1 n2).db := by
  unfold main_run
  split_ifs with h1 h2 h3 h4 h5
  · exact mutual_exclusion_process_mark _ _ _ _ h
  · exact mutual_exclusion_process_ignore _ _ _ h
  · exact h
  · cases hrem : remove_old_directories (record_visit db (args.add.getD "") n1) n2 with
    | ok db2 =>
      simp only [hrem]
      exact mutual_exclusion_delete_directories hrem
        (mutual_exclusion_record_visit db _ n1 h h4.2)
    | error e =>
      simp only [hrem]
      exact mutual_exclusion_record_visit db _ n1 h h4.2
  · exact h
  · cases hpd : process_directory args.directory db with
    | found d =>
      simp only [hpd]
      exact h
    | exit1 out =>
      simp only [hpd]
      exact h

/-- Witness for C6 at a concrete input: an ignore operation on a database
holding a visit record for the ignored directory. -/
theorem c6_mutual_exclusion_preserved_witness :
    mutual_exclusion
      { mark := [], count := [("/a", 1)], ignore := [], time := [("/a", 3)] } ∧
    mutual_exclusion (main_run { ignore := true }
      { mark := [], count := [("/a", 1)], ignore := [], time := [("/a", 3)] }
      "/a" "" 0 0).db := by
  have hme : mutual_exclusion
      { mark := [], count := [("/a", 1)], ignore := [], time := [("/a", 3)] } := by
    intro p hp
    simp at hp
  exact ⟨hme, c6_mutual_exclusion_preserved { ignore := true } _ "/a" "" 0 0 hme⟩

/-! ### Evaluation helpers for the add branch of `main` -/

theorem remove_old_noop (db : Database) (now : ℚ)
    (h : ∀ p ∈ db.time, ¬ (now - p.2 > MAX_AGE)) :
    remove_old_directories db now = Except.ok db := by
  unfold remove_old_directories
  have hfil : db.time.filter (fun p => decide (now - p.2 > MAX_AGE)) = [] := by
    rw [List.filter_eq_nil_iff]
    intro p hp
    simpa using h p hp
  rw [hfil]
  rfl

theorem main_run_add_general (db : Database) (d : String) (cwd mi : String) (n1 n2 : ℚ)
    (hd : d ≠ "") (hig : lookup db.ignore d = none) :
    main_run { add := some d } db cwd mi n1 n2 =
      match remove_old_directories (record_visit db d n1) n2 with
      | Except.ok db2 => finishRun db2 [] none
      | Except.error _ => { db := record_visit db d n1, saved := false, stdout := [], exitCode := 1, resolved := none } := by
  unfold main_run
  rw [if_neg (by simp [truthy]), if_neg (by simp), if_neg (by simp [truthy]),
    if_pos (by simp [truthy, hig, hd])]
  simp only [Option.getD_some]

theorem main_run_add (db : Database) (d : String) (cwd mi : String) (n1 n2 : ℚ)
    (hd : d ≠ "") (hig : lookup db.ignore d = none)
    (hnoop : remove_old_directories (record_visit db d n1) n2 =
      Except.ok (record_visit db d n1)) :
    main_run { add := some d } db cwd mi n1 n2 =
      finishRun (record_visit db d n1) [] none := by
  unfold main_run
  rw [if_neg (by simp [truthy]), if_neg (by simp), if_neg (by simp [truthy]),
    if_pos (by simp [truthy, hig, hd])]
  simp only [Option.getD_some]
  rw [hnoop]

/-! ### Claim C3 -/

/-- Claim C3 (amended): starting from an empty database, two successive
recorded visits to the same directory D (with eviction a no-op both
times) leave `frequency[D] = (1*0.99 + 1)*0.99 = 1.9701` — each visit
increments by 1, sets the timestamp, then multiplies every entry by the
discount factor, including after the second visit. -/
theorem c3_two_visits_amended (d : String) (hd : d ≠ "") (n1 n2 n3 n4 : ℚ)
    (h12 : ¬ (n2 - n1 > MAX_AGE)) (h34 : ¬ (n4 - n3 > MAX_AGE)) :
    lookup (main_run { add := some d }
        (main_run { add := some d } default_json "/" "" n1 n2).db "/" "" n3 n4).db.count d =
      some ((1 * DISCOUNT_FACTOR + 1) * DISCOUNT_FACTOR) := by
  have hr1 : main_run { add := some d } default_json "/" "" n1 n2 =
      finishRun (record_visit default_json d n1) [] none := by
    apply main_run_add default_json d "/" "" n1 n2 hd rfl
    apply remove_old_noop
    intro p hp
    have hp' : p = (d, n1) := by
      simpa [record_visit, default_json, setKey] using hp
    rw [hp']
    exact h12
  have hdb1 : (main_run { add := some d } default_json "/" "" n1 n2).db =
      record_visit default_json d n1 := by
    rw [hr1]
    rfl
  rw [hdb1]
  have hr2 : main_run { add := some d } (record_visit default_json d n1) "/" "" n3 n4 =
      finishRun (record_visit (record_visit default_json d n1) d n3) [] none := by
    apply main_run_add (record_visit default_json d n1) d "/" "" n3 n4 hd rfl
    apply remove_old_noop
    intro p hp
    have hp' : p = (d, n3) := by
      simpa [record_visit, default_json, setKey] using hp
    rw [hp']
    exact h34
  rw [hr2]
  show lookup (record_visit (record_visit default_json d n1) d n3).count d = _
  simp [record_visit, default_json, setKey, lookup, discount_counts]

/-- Counterexample to C3 as stated: two visits to "/d" on an empty
database leave frequency 1.9701, not 1.99 (the claim's value omits the
second visit's decay). -/
theorem c3_two_visits_counterexample :
    lookup (main_run { add := some "/d" }
        (main_run { add := some "/d" } default_json "/" "" 0 0).db "/" "" 0 0).db.count "/d" =
      some (19701 / 10000) ∧ ((19701 / 10000 : ℚ) ≠ 199 / 100) := by
  constructor
  · have hr1 : main_run { add := some "/d" } default_json "/" "" 0 0 =
        finishRun (record_visit default_json "/d" 0) [] none := by
      apply main_run_add default_json "/d" "/" "" 0 0 (by decide) rfl
      apply remove_old_noop
      intro p hp
      have hp' : p = ("/d", 0) := by
        simpa [record_visit, default_json, setKey] using hp
      rw [hp']
      norm_num [MAX_AGE]
    rw [show (main_run { add := some "/d" } default_json "/" "" 0 0).db =
      record_visit default_json "/d" 0 from by
        rw [hr1]
        rfl]
    have hr2 : main_run { add := some "/d" } (record_visit default_json "/d" 0) "/" "" 0 0 =
        finishRun (record_visit (record_visit default_json "/d" 0) "/d" 0) [] none := by
      apply main_run_add (record_visit default_json "/d" 0) "/d" "/" "" 0 0 (by decide) rfl
      apply remove_old_noop
      intro p hp
      have hp' : p = ("/d", 0) := by
        simpa [record_visit, default_json, setKey] using hp
      rw [hp']
      norm_num [MAX_AGE]
    rw [hr2]
    show lookup (record_visit (record_visit default_json "/d" 0) "/d" 0).count "/d" = _
    simp [record_visit, default_json, setKey, lookup, discount_counts]
    norm_num [DISCOUNT_FACTOR]
  · norm_num

/-- Witness for the amended C3 at a concrete input. -/
theorem c3_two_visits_amended_witness :
    (("/d" : String) ≠ "") ∧ ¬ ((0 : ℚ) - 0 > MAX_AGE) ∧
      lookup (main_run { add := some "/d" }
          (main_run { add := some "/d" } default_json "/" "" 0 0).db "/" "" 0 0).db.count "/d" =
        some ((1 * DISCOUNT_FACTOR + 1) * DISCOUNT_FACTOR) :=
  ⟨by decide, by norm_num [MAX_AGE],
    c3_two_visits_amended "/d" (by decide) 0 0 0 0 (by norm_num [MAX_AGE])
      (by norm_num [MAX_AGE])⟩

/-! ### Claim C1 -/

/-- An invocation that reaches path 4 (interactive menu) or path 5
(search): none of the mark, ignore, jump and add operations is
requested. -/
def path45 (args : Args) : Prop :=
  truthy args.mark = false ∧ args.ignore = false ∧ truthy args.jump = false ∧
    truthy args.add = false

/-- The conclusion of claim C1 for the resolved path `p` on the saved
database `db1`: the follow-up recording increments the frequency entry by
1, sets its timestamp to the current time, applies the decay of
`record_visit`, and is immediately followed by eviction of stale
entries. -/
def c1_conclusion (db1 : Database) (p : String) (n3 n4 : ℚ) : Prop :=
  lookup (setKey db1.count p ((lookup db1.count p).getD 0 + 1)) p =
      some ((lookup db1.count p).getD 0 + 1) ∧
  lookup (record_visit db1 p n3).time p = some n3 ∧
  (match remove_old_directories (record_visit db1 p n3) n4 with
    | Except.ok db2 => (shell_followup db1 p true n3 n4).db = db2 ∧
        (shell_followup db1 p true n3 n4).saved = true
    | Except.error _ => (shell_followup db1 p true n3 n4).saved = false)

/-- Claim C1: for every invocation that resolves a directory via the
interactive menu or a search request, if the subsequent change of
directory succeeds (spec-modelled `shell_followup` with `cdOk = true`)
and the resolved path is not in the ignore set, the path's frequency
entry is incremented by 1 and its timestamp set to the current time
(`record_visit`, which then applies decay), followed immediately by
eviction of stale entries. -/
theorem c1_visit_recorded_after_resolution (args : Args) (db : Database)
    (cwd mi : String) (n1 n2 n3 n4 : ℚ) (p : String)
    (hpath : path45 args)
    (hres : (main_run args db cwd mi n1 n2).resolved = some p) (hp : p ≠ "")
    (hig : lookup (main_run args db cwd mi n1 n2).db.ignore p = none) :
    c1_conclusion (main_run args db cwd mi n1 n2).db p n3 n4 := by
  refine ⟨lookup_setKey_self _ _ _, lookup_setKey_self _ _ _, ?_⟩
  have hsf : shell_followup (main_run args db cwd mi n1 n2).db p true n3 n4 =
      main_run { directory := [], add := some p }
        (main_run args db cwd mi n1 n2).db "/" "" n3 n4 := by
    simp [shell_followup]
  have hmain := main_run_add_general ((main_run args db cwd mi n1 n2).db) p "/" "" n3 n4
    hp hig
  cases hrem : remove_old_directories
      (record_visit (main_run args db cwd mi n1 n2).db p n3) n4 with
  | ok db2 =>
    rw [hrem] at hmain
    rw [hsf, hmain]
    exact ⟨rfl, rfl⟩
  | error e =>
    rw [hrem] at hmain
    rw [hsf, hmain]

/-- Witness for C1 at a concrete input: a single-argument search resolves
"/x"; the follow-up after a successful cd records the visit. -/
theorem c1_visit_recorded_after_resolution_witness :
    path45 { directory := ["/x"] } ∧
    (main_run { directory := ["/x"] } default_json "/" "" 0 0).resolved = some "/x" ∧
    (("/x" : String) ≠ "") ∧
    lookup (main_run { directory := ["/x"] } default_json "/" "" 0 0).db.ignore "/x" = none ∧
    c1_conclusion (main_run { directory := ["/x"] } default_json "/" "" 0 0).db "/x" 0 0 :=
  ⟨⟨rfl, rfl, rfl, rfl⟩, by decide, by decide, by decide,
    c1_visit_recorded_after_resolution { directory := ["/x"] } default_json "/" "" 0 0 0 0
      "/x" ⟨rfl, rfl, rfl, rfl⟩ (by decide) (by decide) (by decide)⟩

/-! ### Claim C2 -/

/-- The not-found conditions of claim C2 other than a failed search:
missing mark on jump, removing a nonexistent mark, unignoring a directory
not ignored, and an invalid interactive menu selection. -/
def not_found_saved_cond (args : Args) (db : Database) (cwd mi : String) : Prop :=
  (truthy args.mark = false ∧ args.ignore = false ∧ truthy args.jump = true ∧
    lookup db.mark (args.jump.getD "") = none) ∨
  (truthy args.mark = true ∧ args.delete = true ∧
    lookup db.mark (args.mark.getD "") = none) ∨
  (truthy args.mark = false ∧ args.ignore = true ∧ args.delete = true ∧
    lookup db.ignore cwd = none) ∨
  (truthy args.mark = false ∧ args.ignore = false ∧ truthy args.jump = false ∧
    truthy args.add = false ∧ args.directory = [] ∧
    lookup (print_menu db) mi = none ∧ mi ≠ "i" ∧ mi ≠ "m")

/-- Claim C2 (amended): for the not-found conditions other than a failed
search — mark missing on jump, removing a nonexistent mark, unignoring a
directory not ignored, invalid menu selection — the database is still
saved before the process exits, and the exit is non-zero with no
directory resolved. (A failed search exits non-zero before saving; see
the counterexample.) -/
theorem c2_not_found_saves_database (args : Args) (db : Database) (cwd mi : String)
    (n1 n2 : ℚ) (h : not_found_saved_cond args db cwd mi) :
    (main_run args db cwd mi n1 n2).saved = true ∧
    (main_run args db cwd mi n1 n2).exitCode = 1 ∧
    (main_run args db cwd mi n1 n2).resolved = none := by
  rcases h with ⟨hm, hi, hj, hl⟩ | ⟨hm, hd, hl⟩ | ⟨hm, hi, hd, hl⟩ | ⟨hm, hi, hj, ha, hdir, hl, hne1, hne2⟩
  · unfold main_run
    rw [if_neg (by simp [hm]), if_neg (by simp [hi]), if_pos (by simp [hj])]
    simp [process_jump, hl, finishRun, truthy]
  · unfold main_run
    rw [if_pos (by simp [hm])]
    simp [process_mark, hd, hl, finishRun, truthy]
  · unfold main_run
    rw [if_neg (by simp [hm]), if_pos (by simp [hi])]
    simp [process_ignore, hd, hl, finishRun, truthy]
  · unfold main_run
    rw [if_neg (by simp [hm]), if_neg (by simp [hi]), if_neg (by simp [hj]),
      if_neg (by simp [ha]), if_pos (by simp [hdir])]
    simp [handle_selection, hl, hne1, hne2, finishRun, truthy]

/-- Counterexample to C2 as stated: on a failed search (a not-found
condition), the process exits non-zero without saving the database —
`process_directory` calls `sys.exit(1)` before `main` reaches
`write_data`. -/
theorem c2_failed_search_skips_save :
    (main_run { directory := ["f", "zzz"] } default_json "/" "" 0 0).saved = false ∧
    (main_run { directory := ["f", "zzz"] } default_json "/" "" 0 0).stdout =
      [noMatchMsg ["zzz"]] ∧
    (main_run { directory := ["f", "zzz"] } default_json "/" "" 0 0).exitCode = 1 := by
  refine ⟨?_, ?_, ?_⟩ <;> decide

/-- Witness for the amended C2 at a concrete input: a jump to a missing
mark still saves the database and exits 1. -/
theorem c2_not_found_saves_database_witness :
    not_found_saved_cond { jump := some "proj" } default_json "/" "" ∧
    (main_run { jump := some "proj" } default_json "/" "" 0 0).saved = true ∧
    (main_run { jump := some "proj" } default_json "/" "" 0 0).exitCode = 1 ∧
    (main_run { jump := some "proj" } default_json "/" "" 0 0).resolved = none :=
  ⟨Or.inl ⟨rfl, rfl, rfl, rfl⟩,
    c2_not_found_saves_database { jump := some "proj" } default_json "/" "" 0 0
      (Or.inl ⟨rfl, rfl, rfl, rfl⟩)⟩

/-! ### Claim C4 -/

/-- Claim C4 is contradicted by the code: on a failed search resolution
and on an invalid mark on jump, `main` exits non-zero but an explanatory
message IS written to the primary output stream (plain `print` at
navigate.py lines 126 and 163), although `print_menu`'s own comment
documents that stdout is reserved for the wrapping shell and
`process_jump` already logs the same message to stderr. -/
theorem c4_failed_resolution_writes_stdout :
    ((main_run { directory := ["f", "zzz"] } default_json "/" "" 0 0).stdout =
        [noMatchMsg ["zzz"]] ∧
      (main_run { directory := ["f", "zzz"] } default_json "/" "" 0 0).exitCode = 1) ∧
    ((main_run { jump := some "proj" } default_json "/" "" 0 0).stdout =
        ["Mark proj does not exist."] ∧
      (main_run { jump := some "proj" } default_json "/" "" 0 0).exitCode = 1) := by
  refine ⟨⟨?_, ?_⟩, ⟨?_, ?_⟩⟩ <;> decide

end Navigate
